import Mathlib

/-!
Verification of the build-and-report pipeline of the repository
(`api/build.py` and `evaluate.py`), via a shallow embedding in Lean.

External collaborators (the GitHub REST API, the OpenAI endpoint, the
callback receiver, the wall clock and the random source) are modelled as
explicit oracle parameters gathered in a `World` structure; machine-level
integers are `Nat` with explicit `% 2 ^ 32` where the source relies on
32-bit wrap-around (SHA-1).
-/

namespace Build

/-! ## SHA-1 (as used by `hashlib.sha1` in `safe_repo_name`) -/

/-- 32-bit left rotation on a `Nat` below `2 ^ 32`. -/
def rotl32 (x n : Nat) : Nat :=
  ((x <<< n) ||| (x >>> (32 - n))) % 4294967296

/-- UTF-8 encoding of one code point (Python `str.encode("utf-8")`,
one character). -/
def utf8EncodeChar (c : Nat) : List Nat :=
  if c < 128 then [c]
  else if c < 2048 then
    [192 ||| (c >>> 6), 128 ||| (c &&& 63)]
  else if c < 65536 then
    [224 ||| (c >>> 12), 128 ||| ((c >>> 6) &&& 63), 128 ||| (c &&& 63)]
  else
    [240 ||| (c >>> 18), 128 ||| ((c >>> 12) &&& 63),
     128 ||| ((c >>> 6) &&& 63), 128 ||| (c &&& 63)]

/-- Bytes of a string under UTF-8 (Python `s.encode("utf-8")`). -/
def strBytes (s : String) : List Nat :=
  s.data.flatMap (fun c => utf8EncodeChar c.toNat)

/-- SHA-1 message padding: append `0x80`, zero bytes until the length is
56 mod 64 (wrapping into a further block when fewer than 9 bytes remain in
the current one), then the bit length as 8 big-endian bytes. The zero
count `k` solves `(len + 1 + k) ≡ 56 [MOD 64]`; it is written
`(120 - (len + 1) % 64) % 64` so that the subtraction (on `Nat`) never
truncates — `(len + 1) % 64 ≤ 63 < 120`. -/
def sha1pad (msg : List Nat) : List Nat :=
  let ml := msg.length * 8
  let k := (120 - (msg.length + 1) % 64) % 64
  msg ++ [128] ++ List.replicate k 0 ++
    (List.range 8).map (fun i => (ml >>> (8 * (7 - i))) % 256)

/-- Split a byte list into 32-bit big-endian words. -/
def bytesToWords : List Nat → List Nat
  | b0 :: b1 :: b2 :: b3 :: rest =>
      ((b0 <<< 24) ||| (b1 <<< 16) ||| (b2 <<< 8) ||| b3) :: bytesToWords rest
  | _ => []

/-- Split a list into chunks of 64 elements (fuel-based so that it reduces
definitionally; the fuel is the list length, always sufficient). -/
def chunksGo : Nat → List Nat → List (List Nat)
  | 0, _ => []
  | _, [] => []
  | fuel + 1, l => l.take 64 :: chunksGo fuel (l.drop 64)

/-- Split a list into chunks of 64 elements. -/
def chunks64 (l : List Nat) : List (List Nat) :=
  chunksGo l.length l

/-- Extend the 16 message words to 80 (`w[i] = rotl1 (w[i-3] ^ w[i-8] ^
w[i-14] ^ w[i-16])`), appending `n` further words. -/
def sha1extend (ws : Array Nat) : Nat → Array Nat
  | 0 => ws
  | n + 1 =>
      let m := ws.size
      let w := rotl32 (((ws.getD (m - 3) 0) ^^^ (ws.getD (m - 8) 0)) ^^^
        ((ws.getD (m - 14) 0) ^^^ (ws.getD (m - 16) 0))) 1
      sha1extend (ws.push w) n

/-- One SHA-1 round: state `(a, b, c, d, e)`, round index `i`, word `w`. -/
def sha1round (st : Nat × Nat × Nat × Nat × Nat) (i w : Nat) :
    Nat × Nat × Nat × Nat × Nat :=
  let (a, b, c, d, e) := st
  let f :=
    if i < 20 then (b &&& c) ||| ((b ^^^ 4294967295) &&& d)
    else if i < 40 then (b ^^^ c) ^^^ d
    else if i < 60 then ((b &&& c) ||| (b &&& d)) ||| (c &&& d)
    else (b ^^^ c) ^^^ d
  let k :=
    if i < 20 then 1518500249
    else if i < 40 then 1859775393
    else if i < 60 then 2400959708
    else 3395469782
  let temp := (rotl32 a 5 + f + e + k + w) % 4294967296
  (temp, a, rotl32 b 30, c, d)

/-- Process one 64-byte chunk, updating the five hash registers. -/
def sha1chunk (h : Nat × Nat × Nat × Nat × Nat) (chunk : List Nat) :
    Nat × Nat × Nat × Nat × Nat :=
  let ws := sha1extend ⟨bytesToWords chunk⟩ 64
  let (h0, h1, h2, h3, h4) := h
  let init : Nat × Nat × Nat × Nat × Nat := (h0, h1, h2, h3, h4)
  let fin := (List.range 80).foldl
    (fun st i => sha1round st i (ws.getD i 0)) init
  let (a, b, c, d, e) := fin
  ((h0 + a) % 4294967296, (h1 + b) % 4294967296, (h2 + c) % 4294967296,
   (h3 + d) % 4294967296, (h4 + e) % 4294967296)

/-- SHA-1 of a byte list: the five 32-bit hash registers. -/
def sha1 (msg : List Nat) : Nat × Nat × Nat × Nat × Nat :=
  (chunks64 (sha1pad msg)).foldl sha1chunk
    (1732584193, 4023233417, 2562383102, 271733878, 3285377520)

/-- Lowercase hex digit for a value; values `0`–`15` map to
`0`–`9`, `a`–`f` (out-of-range values clamp to `0`, never produced). -/
def hexDigit (n : Nat) : Char :=
  "0123456789abcdef".data.getD n '0'

/-- A 32-bit word as 8 lowercase hex characters, most significant first. -/
def wordHex (n : Nat) : List Char :=
  (List.range 8).map (fun i => hexDigit ((n >>> (4 * (7 - i))) % 16))

/-- The 40 hex characters of `hashlib.sha1(s.encode("utf-8")).hexdigest()`. -/
def sha1hexChars (s : String) : List Char :=
  let (h0, h1, h2, h3, h4) := sha1 (strBytes s)
  wordHex h0 ++ wordHex h1 ++ wordHex h2 ++ wordHex h3 ++ wordHex h4

/-! ## Identity and naming (`safe_repo_name`) -/

/-- The first 6 characters of `uuid.uuid4().hex`: the hex expansion of the
first 3 of the 16 random bytes (the version/variant bits forced by `uuid4`
sit in bytes 6 and 8, so they do not affect this prefix). The random source
is passed explicitly. -/
def uuid4hex6 (randomBytes : List Nat) : String :=
  String.mk (((randomBytes.map (fun b => b % 256)).take 3).flatMap
    (fun b => [hexDigit (b / 16), hexDigit (b % 16)]))

/-- Python `s.replace(a, b)` for one-character patterns: every occurrence
of `a` becomes `b`. -/
def replaceChar (a b : Char) (l : List Char) : List Char :=
  l.map (fun c => if c = a then b else c)

/-- Python `s.lower()` restricted to ASCII (`Char.toLower` maps `A`–`Z`;
the repository only feeds ASCII task labels through this). -/
def lowerChars (l : List Char) : List Char :=
  l.map Char.toLower

/-- `safe_repo_name` from `api/build.py`, with the random source
(`uuid.uuid4()`) passed explicitly as `randomBytes`. -/
def safe_repo_name (task email : String) (randomBytes : List Nat) : String :=
  let email_hash := String.mk ((sha1hexChars email).take 8)
  let uid := uuid4hex6 randomBytes
  let base :=
    String.mk (lowerChars (replaceChar '/' '-' (replaceChar ' ' '-' task.data)))
  base ++ "-" ++ email_hash ++ "-" ++ uid

/-! ## Secret validation (`validate_secret`) -/

/-- Python `s.split(",")`: split at every comma, keeping empty pieces
(`"".split(",") == [""]`). -/
def splitCommaAux (cur : List Char) : List Char → List (List Char)
  | [] => [cur.reverse]
  | c :: rest =>
      if c = ',' then cur.reverse :: splitCommaAux [] rest
      else splitCommaAux (c :: cur) rest

def splitComma (l : List Char) : List (List Char) :=
  splitCommaAux [] l

/-- Drop leading whitespace. -/
def dropLeadingWs : List Char → List Char
  | [] => []
  | c :: rest => if c.isWhitespace then dropLeadingWs rest else c :: rest

/-- Python `s.strip()` (ASCII whitespace; the secrets here are ASCII). -/
def stripChars (l : List Char) : List Char :=
  (dropLeadingWs (dropLeadingWs l).reverse).reverse

/-- `validate_secret` from `api/build.py`; `VALID_SECRET` (the environment
value, default `""`) is passed explicitly. Python `if not VALID_SECRET`
rejects exactly the empty string;
`valid = [s.strip() for s in VALID_SECRET.split(",") if s.strip()]` keeps
the stripped non-empty pieces. -/
def validate_secret (VALID_SECRET provided : String) : Bool :=
  if VALID_SECRET = "" then false
  else
    let valid := ((splitComma VALID_SECRET.data).map stripChars).filter
      (fun s => s ≠ [])
    valid.contains provided.data

/-! ## Callback notifier (`post_evaluation`) -/

def EVAL_POST_MAX_TRIES : Nat := 6

/-- Outcome of one POST attempt, supplied by the environment oracle:
`some s` is a response with HTTP status `s`; `none` is a raised transport
exception (connection error, timeout). -/
abbrev RespondOracle := Nat → Option Nat

/-- How `post_evaluation` ends: `returned` means the Python function
returned normally; `raised msg` means it raised `RuntimeError(msg)`. -/
inductive NotifyResult where
  | returned : NotifyResult
  | raised (msg : String) : NotifyResult
deriving Repr, DecidableEq

/-- Observable outcome of `post_evaluation`: how it ended, how many POST
attempts were made, and the `time.sleep` durations in order. -/
structure NotifyOutcome where
  result : NotifyResult
  attempts : Nat
  waits : List Nat
deriving Repr, DecidableEq

/-- The loop body of `post_evaluation`: `i` attempts made so far, current
`wait`, accumulated sleeps (reversed), remaining iterations. Each failed
attempt (any non-200 status or an exception) is followed by
`time.sleep(wait); wait *= 2` — including the last one. -/
def postEvalGo (respond : RespondOracle) (i wait : Nat) (acc : List Nat) :
    Nat → NotifyOutcome
  | 0 =>
      ⟨NotifyResult.raised "Evaluation POST failed after retries", i,
        acc.reverse⟩
  | n + 1 =>
      if respond i = some 200 then ⟨NotifyResult.returned, i + 1, acc.reverse⟩
      else postEvalGo respond (i + 1) (wait * 2) (wait :: acc) n

/-- `post_evaluation` from `api/build.py`, over the attempt oracle. -/
def post_evaluation (respond : RespondOracle) : NotifyOutcome :=
  postEvalGo respond 0 1 [] EVAL_POST_MAX_TRIES

/-- Doubling wait sequence `[w, 2w, 4w, …]` of a given length. -/
def geomWaits (w : Nat) : Nat → List Nat
  | 0 => []
  | n + 1 => w :: geomWaits (w * 2) n

/-! ## Content synthesizer (`generate_default_index_html`,
`llm_generate_files`) -/

/-- `generate_default_index_html` from `api/build.py` (the f-string, with
`\x7b\x7b`/`\x7d\x7d` escapes resolved to literal braces and `task`/`brief`
interpolated). -/
def generate_default_index_html (brief task : String) : String :=
  "<!DOCTYPE html>\n<html lang=\"en\">\n<head>\n  <meta charset=\"utf-8\"/>\n  <meta name=\"viewport\" content=\"width=device-width,initial-scale=1\"/>\n  <title>" ++
  task ++
  " - Demo</title>\n  <style>\n    body\x7bfont-family:sans-serif;padding:2rem;max-width:800px;margin:auto;\x7d\n    h1\x7bcolor:#333;\x7d\n    #image\x7bmax-width:400px;display:block;margin-top:1rem;\x7d\n    #solved\x7bcolor:green;font-weight:bold;margin-top:1rem;\x7d\n  </style>\n</head>\n<body>\n  <h1>" ++
  task ++
  "</h1>\n  <p>" ++
  brief ++
  "</p>\n  <div id=\"url-display\"></div>\n  <img id=\"image\" alt=\"captcha\"/>\n  <div id=\"solved\">Solving not supported in default build â€” replace with a real solver.</div>\n  <script>\n    const params=new URLSearchParams(window.location.search);\n    const url=params.get(\"url\");\n    const img=document.getElementById(\"image\");\n    const disp=document.getElementById(\"url-display\");\n    if(url)\x7bdisp.textContent=\"Image URL: \"+url;img.src=url;\x7d\n    else disp.textContent=\"No ?url provided.\";\n    setTimeout(()=>document.getElementById(\"solved\").textContent=\"SAMPLE-SOLVED-TEXT\",1200);\n  </script>\n</body>\n</html>"

/-- Behavior of the generation collaborator as observed by
`llm_generate_files`:
* `noKey`: `OPENAI_API_KEY` unset, the HTTP call is never made;
* `failure`: any exception on the delegation path — network error, timeout,
  non-2xx status (`raise_for_status`), unparseable JSON content, or a
  non-object JSON value; all land in the `except` clause;
* `success ih rm`: the response parsed as a JSON object; `ih`/`rm` are
  `j.get("index_html")`/`j.get("readme_md")` (`none` when absent). -/
inductive LlmBehavior where
  | noKey : LlmBehavior
  | failure : LlmBehavior
  | success (ih rm : Option String) : LlmBehavior
deriving Repr, DecidableEq

/-- Python `x or d` for an optional string: `None` and `""` are falsy. -/
def pyOr (o : Option String) (d : String) : String :=
  match o with
  | none => d
  | some s => if s = "" then d else s

/-- `llm_generate_files` from `api/build.py`, over the collaborator
behavior. Returns the `files` dict as an association list in insertion
order. -/
def llm_generate_files (brief task : String) (b : LlmBehavior) :
    List (String × String) :=
  match b with
  | .noKey =>
      [("index.html", generate_default_index_html brief task),
       ("README.md",
        "# " ++ task ++ "\n\nAuto-generated demo page.\n\nBrief: " ++
          brief ++ "\n")]
  | .failure =>
      [("index.html", generate_default_index_html brief task),
       ("README.md",
        "# " ++ task ++ "\n\nFallback content.\n\nBrief: " ++ brief ++ "\n")]
  | .success ih rm =>
      [("index.html", pyOr ih (generate_default_index_html brief task)),
       ("README.md", pyOr rm ("# " ++ task ++ "\n\nBrief: " ++ brief ++ "\n"))]

/-! ## License template (`MIT_LICENSE_TEXT`, `make_mit_license`) -/

/-- `make_mit_license` from `api/build.py`: `MIT_LICENSE_TEXT.format`
with the current year (`time.strftime("%Y")`, passed explicitly) and
`owner or "Unknown"`. -/
def make_mit_license (yearStr owner : String) : String :=
  "MIT License\n\nCopyright (c) " ++ yearStr ++ " " ++
  (if owner = "" then "Unknown" else owner) ++
  "\n\nPermission is hereby granted, free of charge, to any person obtaining a copy\nof this software and associated documentation files (the \"Software\"), to deal\nin the Software without restriction, including without limitation the rights\nto use, copy, modify, merge, publish, distribute, sublicense, and/or sell\ncopies of the Software, and to permit persons to whom the Software is\nfurnished to do so, subject to the following conditions:\n(standard MIT text truncated for brevity)\n"

/-! ## Evaluator license check (`check_license` from `evaluate.py`) -/

/-- Outcome of `repo.get_contents("LICENSE").decoded_content.decode()`:
`ok content` on success, `failure` for any raised exception (file absent,
network error, decode error). -/
inductive FetchResult where
  | ok (content : String) : FetchResult
  | failure : FetchResult
deriving Repr, DecidableEq

/-- Whether `pat` is a leading segment of `s` (executable). -/
def leadsWith : List Char → List Char → Bool
  | [], _ => true
  | _ :: _, [] => false
  | p :: ps, c :: cs => p == c && leadsWith ps cs

/-- Whether `pat` occurs as a contiguous substring of `s` (Python
`pat in s` on strings, executable). -/
def containsSub (pat : List Char) : List Char → Bool
  | [] => leadsWith pat []
  | c :: t => leadsWith pat (c :: t) || containsSub pat t

/-- `check_license` from `evaluate.py`, over the fetch outcome. Python
`"MIT" in content` is substring containment. -/
def check_license (fetch : FetchResult) : Bool × String :=
  match fetch with
  | .ok content =>
      if containsSub "MIT".data content.data then (true, "MIT license found")
      else (false, "LICENSE exists but does not mention MIT")
  | .failure => (false, "LICENSE not found")

/-! ## Build endpoint (`build_endpoint` from `api/build.py`) -/

/-- The parsed JSON body of a build request. `none` models an absent key
(`k not in data`); JSON scalar values are modelled as strings (`round` and
`nonce` are only forwarded verbatim into the callback payload). -/
structure BuildData where
  email : Option String
  secret : Option String
  task : Option String
  round : Option String
  nonce : Option String
  brief : Option String
  evaluation_url : Option String
deriving Repr, DecidableEq

/-- A side-effecting HTTP call made by the endpoint to an external
collaborator, in program order: the create-repository call, a per-file
contents PUT, the enable-pages call, one callback POST attempt. -/
inductive Effect where
  | createRepo (name : String) : Effect
  | pushFile (path : String) : Effect
  | enablePages (user repo : String) : Effect
  | notifyAttempt (i : Nat) : Effect
deriving Repr, DecidableEq

def Effect.isPush : Effect → Bool
  | .pushFile _ => true
  | _ => false

def Effect.isEnable : Effect → Bool
  | .enablePages _ _ => true
  | _ => false

def Effect.isNotify : Effect → Bool
  | .notifyAttempt _ => true
  | _ => false

/-- Which publish stage raised, reflected in the 500 response message
(`"GitHub repo creation failed: …"`, `"Failed to push <path>: …"`, or the
transport exception text from the enable-pages call). -/
inductive GhStage where
  | create : GhStage
  | push (path : String) : GhStage
  | enable : GhStage
deriving Repr, DecidableEq

/-- The callback/evaluation JSON payload assembled by the endpoint. -/
structure EvalPayload where
  email : String
  task : String
  round : String
  nonce : String
  repo_url : String
  pages_url : String
  commit_sha : String
deriving Repr, DecidableEq

/-- The JSON body of the endpoint response. `missingFields fields` models
`{"error": f"Missing fields: {missing}"}` (the Python list repr of the
missing keys, in required-field order); `ghError st` models
`{"error": f"GitHub operation failed: {e}"}` with `e` identifying the
failing stage; `payload st p` models `{"status": st, **eval_payload}`. -/
inductive RespBody where
  | missingFields (fields : List String) : RespBody
  | error (msg : String) : RespBody
  | ghError (stage : GhStage) : RespBody
  | payload (status : String) (p : EvalPayload) : RespBody
deriving Repr, DecidableEq

/-- A Flask `(jsonify(...), status)` pair. -/
structure BResponse where
  body : RespBody
  status : Nat
deriving Repr, DecidableEq

/-- The environment of one request: configuration read from environment
variables, the random source, and the behavior of every external
collaborator. -/
structure World where
  VALID_SECRET : String
  GITHUB_USER : String
  yearStr : String
  randomBytes : List Nat
  llm : LlmBehavior
  createOk : Bool
  createdRepoUrl : String
  pushOk : String → Bool
  enableRaises : Bool
  respond : RespondOracle

/-- The `required` field list of the endpoint, paired with the request
values, in source order. -/
def requiredFields (d : BuildData) : List (String × Option String) :=
  [("email", d.email), ("secret", d.secret), ("task", d.task),
   ("round", d.round), ("nonce", d.nonce), ("brief", d.brief),
   ("evaluation_url", d.evaluation_url)]

/-- `missing = [k for k in required if k not in data]`: presence is the
only thing checked. -/
def missingOf (d : BuildData) : List String :=
  ((requiredFields d).filter (fun kv => kv.2.isNone)).map (fun kv => kv.1)

/-- The `files` dict at push time: the synthesizer output (always exactly
`index.html` then `README.md`), then `files["LICENSE"] = …` (a fresh key,
so appended), then `files.setdefault(".gitignore", …)` (absent, so
appended). `owner_for_license = email.split("@")[0]`. -/
def buildFiles (brief task email yearStr : String) (b : LlmBehavior) :
    List (String × String) :=
  llm_generate_files brief task b ++
    [("LICENSE", make_mit_license yearStr ((email.splitOn "@").headD "")),
     (".gitignore", "__pycache__/\nnode_modules/\n.env\n")]

/-- The `for path, content in files.items(): push_file(...)` loop: pushes
in order, stopping at the first file whose PUT does not return 200/201
(which raises). Returns the push calls made and the failing path, if
any. -/
def pushLoop (pushOk : String → Bool) :
    List (String × String) → List Effect × Option String
  | [] => ([], none)
  | (path, _) :: rest =>
      if pushOk path then
        let r := pushLoop pushOk rest
        (Effect.pushFile path :: r.1, r.2)
      else ([Effect.pushFile path], some path)

/-- `build_endpoint` from `api/build.py`, as a function of the environment
and the parsed request body, returning the HTTP response and the ordered
list of external calls made. Notes kept from the source: `enable_pages`
only warns on a non-2xx status (it raises only on a transport error,
modelled by `enableRaises`); the `try` around `post_evaluation` maps its
`RuntimeError` to the `"partial"` 200 response. -/
def build_endpoint (w : World) (d : BuildData) : BResponse × List Effect :=
  let missing := missingOf d
  if missing ≠ [] then (⟨RespBody.missingFields missing, 400⟩, [])
  else if validate_secret w.VALID_SECRET (d.secret.getD "") = false then
    (⟨RespBody.error "Invalid secret", 403⟩, [])
  else
    let email := d.email.getD ""
    let task := d.task.getD ""
    let brief := d.brief.getD ""
    let repo_name := safe_repo_name task email w.randomBytes
    let files := buildFiles brief task email w.yearStr w.llm
    if w.createOk = false then
      (⟨RespBody.ghError GhStage.create, 500⟩, [Effect.createRepo repo_name])
    else
      let pushed := pushLoop w.pushOk files
      match pushed.2 with
      | some p =>
          (⟨RespBody.ghError (GhStage.push p), 500⟩,
            Effect.createRepo repo_name :: pushed.1)
      | none =>
          if w.enableRaises then
            (⟨RespBody.ghError GhStage.enable, 500⟩,
              Effect.createRepo repo_name ::
                (pushed.1 ++ [Effect.enablePages w.GITHUB_USER repo_name]))
          else
            let pages_url :=
              "https://" ++ w.GITHUB_USER ++ ".github.io/" ++ repo_name ++ "/"
            let payload : EvalPayload :=
              { email := email, task := task, round := d.round.getD "",
                nonce := d.nonce.getD "", repo_url := w.createdRepoUrl,
                pages_url := pages_url, commit_sha := "latest" }
            let n := post_evaluation w.respond
            let effs := Effect.createRepo repo_name ::
              (pushed.1 ++ [Effect.enablePages w.GITHUB_USER repo_name] ++
                (List.range n.attempts).map Effect.notifyAttempt)
            match n.result with
            | NotifyResult.returned =>
                (⟨RespBody.payload "ok" payload, 200⟩, effs)
            | NotifyResult.raised _ =>
                (⟨RespBody.payload "partial" payload, 200⟩, effs)

/-! ## Lemmas about the notifier loop -/

/-- If every attempt in the window fails, the loop runs all its iterations,
sleeping after every failed attempt (the final one included), and raises. -/
lemma postEvalGo_allFail (respond : RespondOracle) (n : Nat) :
    ∀ (i w : Nat) (acc : List Nat),
      (∀ j, j < n → respond (i + j) ≠ some 200) →
      postEvalGo respond i w acc n =
        ⟨NotifyResult.raised "Evaluation POST failed after retries", i + n,
          acc.reverse ++ geomWaits w n⟩ := by
  induction n with
  | zero =>
      intro i w acc _
      simp [postEvalGo, geomWaits]
  | succ n ih =>
      intro i w acc h
      have h0 : ¬ respond i = some 200 := by simpa using h 0 (by omega)
      rw [postEvalGo, if_neg h0, ih (i + 1) (w * 2) (w :: acc)]
      · simp only [NotifyOutcome.mk.injEq, geomWaits, List.reverse_cons,
          List.append_assoc, List.cons_append, List.nil_append, true_and,
          and_true]
        omega
      · intro j hj
        have := h (j + 1) (by omega)
        simpa [show i + 1 + j = i + (j + 1) by omega] using this

/-- If the first success in the window is at offset `k`, the loop returns
after attempt `k + 1`, having slept only after the `k` failed attempts. -/
lemma postEvalGo_firstSuccess (respond : RespondOracle) (n : Nat) :
    ∀ (k i w : Nat) (acc : List Nat), k < n →
      respond (i + k) = some 200 →
      (∀ j, j < k → respond (i + j) ≠ some 200) →
      postEvalGo respond i w acc n =
        ⟨NotifyResult.returned, i + k + 1, acc.reverse ++ geomWaits w k⟩ := by
  induction n with
  | zero => intro k i w acc hk; omega
  | succ n ih =>
      intro k i w acc hk hs hmin
      cases k with
      | zero =>
          have h0 : respond i = some 200 := by simpa using hs
          rw [postEvalGo, if_pos h0]
          simp [geomWaits]
      | succ k =>
          have h0 : ¬ respond i = some 200 := by simpa using hmin 0 (by omega)
          rw [postEvalGo, if_neg h0,
            ih k (i + 1) (w * 2) (w :: acc) (by omega)
              (by simpa [show i + 1 + k = i + (k + 1) by omega] using hs)
              (fun j hj => by
                have := hmin (j + 1) (by omega)
                simpa [show i + 1 + j = i + (j + 1) by omega] using this)]
          simp only [NotifyOutcome.mk.injEq, geomWaits, List.reverse_cons,
            List.append_assoc, List.cons_append, List.nil_append, true_and,
            and_true]
          omega

/-- The loop never makes more attempts than it has iterations left. -/
lemma postEvalGo_attempts_le (respond : RespondOracle) (n : Nat) :
    ∀ (i w : Nat) (acc : List Nat),
      (postEvalGo respond i w acc n).attempts ≤ i + n := by
  induction n with
  | zero => intro i w acc; simp [postEvalGo]
  | succ n ih =>
      intro i w acc
      rw [postEvalGo]
      by_cases h : respond i = some 200
      · rw [if_pos h]
        show i + 1 ≤ i + (n + 1)
        omega
      · rw [if_neg h]
        calc (postEvalGo respond (i + 1) (w * 2) (w :: acc) n).attempts
            ≤ i + 1 + n := ih (i + 1) (w * 2) (w :: acc)
          _ = i + (n + 1) := by omega

/-- `post_evaluation` when no attempt gets a 200: all six attempts run,
six sleeps happen (`1, 2, 4, 8, 16, 32`), and `RuntimeError` is raised. -/
lemma post_evaluation_allFail (respond : RespondOracle)
    (h : ∀ k, k < 6 → respond k ≠ some 200) :
    post_evaluation respond =
      ⟨NotifyResult.raised "Evaluation POST failed after retries", 6,
        [1, 2, 4, 8, 16, 32]⟩ := by
  have := postEvalGo_allFail respond 6 0 1 [] (by simpa using h)
  simpa [post_evaluation, EVAL_POST_MAX_TRIES, geomWaits] using this

/-- `post_evaluation` when the first 200 arrives at attempt index `k`:
it returns after `k + 1` attempts with sleeps `1, 2, …, 2 ^ (k - 1)`. -/
lemma post_evaluation_firstSuccess (respond : RespondOracle) (k : Nat)
    (hk : k < 6) (hs : respond k = some 200)
    (hmin : ∀ j, j < k → respond j ≠ some 200) :
    post_evaluation respond =
      ⟨NotifyResult.returned, k + 1, geomWaits 1 k⟩ := by
  have := postEvalGo_firstSuccess respond 6 k 0 1 [] hk (by simpa using hs)
    (by simpa using hmin)
  simpa [post_evaluation, EVAL_POST_MAX_TRIES] using this

/-- Claim C1: the callback notifier makes at most 6 delivery attempts with
doubling waits between consecutive attempts and short-circuits on the first
200 response — all true of the code — but the code does sleep once more
after the 6th failed attempt (32 time units), so the full wait schedule on
exhaustion is `1, 2, 4, 8, 16, 32`, not `1, 2, 4, 8, 16`. Amended
accordingly. -/
theorem C1_notifier_retry_schedule (respond : RespondOracle) :
    (post_evaluation respond).attempts ≤ 6 ∧
    ((∀ k, k < 6 → respond k ≠ some 200) →
      post_evaluation respond =
        ⟨NotifyResult.raised "Evaluation POST failed after retries", 6,
          [1, 2, 4, 8, 16, 32]⟩) ∧
    (∀ k, k < 6 → respond k = some 200 →
      (∀ j, j < k → respond j ≠ some 200) →
      post_evaluation respond =
        ⟨NotifyResult.returned, k + 1, geomWaits 1 k⟩) := by
  refine ⟨?_, post_evaluation_allFail respond,
    fun k hk hs hmin => post_evaluation_firstSuccess respond k hk hs hmin⟩
  simpa [post_evaluation, EVAL_POST_MAX_TRIES] using
    postEvalGo_attempts_le respond 6 0 1 []

/-- Claim C1, counterexample to the claim as stated: with every attempt
failing, a sixth sleep (32 time units) happens after the 6th attempt, so
the wait list is not `[1, 2, 4, 8, 16]`. -/
theorem C1_counterexample :
    (post_evaluation (fun _ => none)).attempts = 6 ∧
    (post_evaluation (fun _ => none)).waits = [1, 2, 4, 8, 16, 32] ∧
    (post_evaluation (fun _ => none)).waits ≠ [1, 2, 4, 8, 16] := by
  decide

/-- Claim C1, witness: a callback that first succeeds on the third attempt
(index 2) stops after 3 attempts with waits `[1, 2]`. -/
theorem C1_witness :
    post_evaluation (fun i => if i = 2 then some 200 else some 500) =
      ⟨NotifyResult.returned, 3, [1, 2]⟩ := by
  have := (C1_notifier_retry_schedule
    (fun i => if i = 2 then some 200 else some 500)).2.2 2 (by decide)
    (by decide) (by decide)
  simpa [geomWaits] using this

/-! ## Lemmas about the endpoint pipeline -/

/-- A request body with all seven required fields present. -/
def mkData (e s t r nn b u : String) : BuildData :=
  ⟨some e, some s, some t, some r, some nn, some b, some u⟩

lemma missingOf_mkData (e s t r nn b u : String) :
    missingOf (mkData e s t r nn b u) = [] := rfl

/-- When every file PUT succeeds, the loop pushes every file in dict order
and reports no failure. -/
lemma pushLoop_all_ok (pushOk : String → Bool) (fs : List (String × String))
    (h : ∀ f ∈ fs, pushOk f.1 = true) :
    pushLoop pushOk fs = (fs.map (fun f => Effect.pushFile f.1), none) := by
  induction fs with
  | nil => rfl
  | cons f rest ih =>
      obtain ⟨path, content⟩ := f
      have hf : pushOk path = true := h (path, content) (by simp)
      rw [pushLoop, if_pos hf, ih (fun g hg => h g (by simp [hg]))]
      simp

/-- Every call the push loop makes is a file PUT. -/
lemma pushLoop_effects_arePushes (pushOk : String → Bool)
    (fs : List (String × String)) :
    ∀ eff ∈ (pushLoop pushOk fs).1, eff.isPush = true := by
  induction fs with
  | nil => intro eff h; simp [pushLoop] at h
  | cons f rest ih =>
      obtain ⟨path, content⟩ := f
      intro eff h
      rw [pushLoop] at h
      by_cases hf : pushOk path = true
      · rw [if_pos hf] at h
        rcases List.mem_cons.mp h with h1 | h2
        · simp [h1, Effect.isPush]
        · exact ih eff h2
      · rw [if_neg hf] at h
        rcases List.mem_cons.mp h with h1 | h2
        · simp [h1, Effect.isPush]
        · simp at h2

/-- If some file PUT fails, the loop reports a failing path. -/
lemma pushLoop_fail (pushOk : String → Bool) (fs : List (String × String))
    (h : ∃ f ∈ fs, pushOk f.1 = false) :
    ∃ p, (pushLoop pushOk fs).2 = some p := by
  induction fs with
  | nil => simp at h
  | cons f rest ih =>
      obtain ⟨path, content⟩ := f
      by_cases hf : pushOk path = true
      · rw [pushLoop, if_pos hf]
        rcases h with ⟨g, hg, hfail⟩
        rcases List.mem_cons.mp hg with h1 | h2
        · rw [h1] at hfail; simp [hf] at hfail
        · exact ih ⟨g, h2, hfail⟩
      · rw [pushLoop, if_neg hf]
        exact ⟨path, rfl⟩

/-- The callback payload assembled on the publish-success path. -/
def happyPayload (w : World) (e t r nn : String) : EvalPayload :=
  ⟨e, t, r, nn, w.createdRepoUrl,
   "https://" ++ w.GITHUB_USER ++ ".github.io/" ++
     safe_repo_name t e w.randomBytes ++ "/",
   "latest"⟩

/-- The external calls made on the publish-success path. -/
def happyEffects (w : World) (e t b : String) : List Effect :=
  Effect.createRepo (safe_repo_name t e w.randomBytes) ::
    ((buildFiles b t e w.yearStr w.llm).map (fun f => Effect.pushFile f.1) ++
      [Effect.enablePages w.GITHUB_USER (safe_repo_name t e w.randomBytes)] ++
      (List.range (post_evaluation w.respond).attempts).map
        Effect.notifyAttempt)

/-- Endpoint behavior when validation, auth and all three publish stages
succeed: the response depends only on the notify outcome. -/
lemma build_endpoint_happy (w : World) (e s t r nn b u : String)
    (hsecret : validate_secret w.VALID_SECRET s = true)
    (hcreate : w.createOk = true)
    (hpush : ∀ f ∈ buildFiles b t e w.yearStr w.llm, w.pushOk f.1 = true)
    (henable : w.enableRaises = false) :
    build_endpoint w (mkData e s t r nn b u) =
      ((match (post_evaluation w.respond).result with
        | NotifyResult.returned =>
            ⟨RespBody.payload "ok" (happyPayload w e t r nn), 200⟩
        | NotifyResult.raised _ =>
            ⟨RespBody.payload "partial" (happyPayload w e t r nn), 200⟩),
       happyEffects w e t b) := by
  simp only [build_endpoint, missingOf_mkData, mkData, Option.getD_some,
    hsecret, hcreate, henable, pushLoop_all_ok w.pushOk _ hpush,
    happyPayload, happyEffects, ne_eq, not_true_eq_false, if_false,
    Bool.true_eq_false, if_true, Bool.false_eq_true]
  have hm : ¬ ¬ (missingOf ⟨some e, some s, some t, some r, some nn, some b,
      some u⟩ = []) := not_not_intro rfl
  rw [if_neg hm]
  cases hres : (post_evaluation w.respond).result with
  | returned => simp [hres]
  | raised msg => simp [hres]

/-- A push-only effect is neither the enable-pages call nor a notify
attempt. -/
lemma isPush_not_enable_notify (eff : Effect) (h : eff.isPush = true) :
    eff.isEnable = false ∧ eff.isNotify = false := by
  cases eff <;> simp [Effect.isPush, Effect.isEnable, Effect.isNotify] at h ⊢

/-- Shared: an endpoint request whose secret does not validate gets the
403 `"Invalid secret"` error and no external call is made. -/
lemma endpoint_invalid_secret (w : World) (e s t r nn b u : String)
    (hsecret : validate_secret w.VALID_SECRET s = false) :
    build_endpoint w (mkData e s t r nn b u) =
      (⟨RespBody.error "Invalid secret", 403⟩, []) := by
  simp only [build_endpoint, mkData, Option.getD_some]
  have hm : ¬ ¬ (missingOf ⟨some e, some s, some t, some r, some nn, some b,
      some u⟩ = []) := not_not_intro rfl
  rw [if_neg hm, if_pos hsecret]

/-! ## Concrete environments used by the witnesses -/

/-- A fully healthy environment: secret `"tds2025"` configured, every
collaborator call succeeds except the callback, which always answers
500. -/
def okWorld : World where
  VALID_SECRET := "tds2025"
  GITHUB_USER := "octocat"
  yearStr := "2026"
  randomBytes := [0, 17, 34, 255]
  llm := LlmBehavior.noKey
  createOk := true
  createdRepoUrl := "https://github.com/octocat/demo-repo"
  pushOk := fun _ => true
  enableRaises := false
  respond := fun _ => some 500

/-- `okWorld` but the create-repository call fails. -/
def createFailWorld : World := { okWorld with createOk := false }

/-- `okWorld` but the callback answers 200 at once. -/
def deliveredWorld : World := { okWorld with respond := fun _ => some 200 }

/-! ## Claims C2–C6, C10 -/

/-- Claim C2 (amended): when all 6 callback attempts fail,
`post_evaluation` does not return an Exhausted value — it raises
`RuntimeError("Evaluation POST failed after retries")`; the build endpoint
catches that exception and surfaces the 200 `"partial"` outcome, so no
exception reaches the endpoint caller. -/
theorem C2_exhaustion_raises_and_is_caught (w : World) (e s t r nn b u : String)
    (hfail : ∀ k, k < 6 → w.respond k ≠ some 200)
    (hsecret : validate_secret w.VALID_SECRET s = true)
    (hcreate : w.createOk = true)
    (hpush : ∀ f ∈ buildFiles b t e w.yearStr w.llm, w.pushOk f.1 = true)
    (henable : w.enableRaises = false) :
    (post_evaluation w.respond).result =
      NotifyResult.raised "Evaluation POST failed after retries" ∧
    build_endpoint w (mkData e s t r nn b u) =
      (⟨RespBody.payload "partial" (happyPayload w e t r nn), 200⟩,
        happyEffects w e t b) := by
  have hn := post_evaluation_allFail w.respond hfail
  refine ⟨by rw [hn], ?_⟩
  rw [build_endpoint_happy w e s t r nn b u hsecret hcreate hpush henable, hn]

/-- Claim C2, counterexample to the claim as stated: with every attempt
failing, `post_evaluation` raises rather than returning an Exhausted
outcome. -/
theorem C2_counterexample :
    (post_evaluation (fun _ => none)).result =
      NotifyResult.raised "Evaluation POST failed after retries" := by
  decide

/-- Claim C2, witness: the amended theorem applied in `okWorld` (callback
always answers 500). -/
theorem C2_witness :
    (post_evaluation okWorld.respond).result =
      NotifyResult.raised "Evaluation POST failed after retries" ∧
    build_endpoint okWorld
        (mkData "alice@example.com" "tds2025" "Solve Captcha" "1" "n-1"
          "a captcha solver" "https://cb.example/hook") =
      (⟨RespBody.payload "partial"
          (happyPayload okWorld "alice@example.com" "Solve Captcha" "1" "n-1"),
        200⟩,
        happyEffects okWorld "alice@example.com" "Solve Captcha"
          "a captcha solver") :=
  C2_exhaustion_raises_and_is_caught okWorld "alice@example.com" "tds2025"
    "Solve Captcha" "1" "n-1" "a captcha solver" "https://cb.example/hook"
    (by decide) (by decide) rfl (fun f _ => rfl) rfl

/-- Claim C3: on a valid request whose publish succeeds, the endpoint
answers HTTP 200 in both notify outcomes — `"partial"` when the callback
is exhausted, `"ok"` when it is delivered — and in both cases the body
carries the published repository URL and pages URL. -/
theorem C3_partial_and_ok_responses (w : World) (e s t r nn b u : String)
    (hsecret : validate_secret w.VALID_SECRET s = true)
    (hcreate : w.createOk = true)
    (hpush : ∀ f ∈ buildFiles b t e w.yearStr w.llm, w.pushOk f.1 = true)
    (henable : w.enableRaises = false) :
    ((∀ k, k < 6 → w.respond k ≠ some 200) →
      build_endpoint w (mkData e s t r nn b u) =
        (⟨RespBody.payload "partial" (happyPayload w e t r nn), 200⟩,
          happyEffects w e t b)) ∧
    (∀ k, k < 6 → w.respond k = some 200 →
      (∀ j, j < k → w.respond j ≠ some 200) →
      build_endpoint w (mkData e s t r nn b u) =
        (⟨RespBody.payload "ok" (happyPayload w e t r nn), 200⟩,
          happyEffects w e t b)) ∧
    (happyPayload w e t r nn).repo_url = w.createdRepoUrl ∧
    (happyPayload w e t r nn).pages_url =
      "https://" ++ w.GITHUB_USER ++ ".github.io/" ++
        safe_repo_name t e w.randomBytes ++ "/" := by
  have hh := build_endpoint_happy w e s t r nn b u hsecret hcreate hpush henable
  refine ⟨?_, ?_, rfl, rfl⟩
  · intro hfail
    rw [hh, post_evaluation_allFail w.respond hfail]
  · intro k hk hs hmin
    rw [hh, post_evaluation_firstSuccess w.respond k hk hs hmin]

/-- Claim C3, witness: exhausted callback in `okWorld` gives `"partial"`,
immediate delivery in `deliveredWorld` gives `"ok"`. -/
theorem C3_witness :
    build_endpoint okWorld
        (mkData "alice@example.com" "tds2025" "Solve Captcha" "1" "n-1"
          "a captcha solver" "https://cb.example/hook") =
      (⟨RespBody.payload "partial"
          (happyPayload okWorld "alice@example.com" "Solve Captcha" "1" "n-1"),
        200⟩,
        happyEffects okWorld "alice@example.com" "Solve Captcha"
          "a captcha solver") ∧
    build_endpoint deliveredWorld
        (mkData "alice@example.com" "tds2025" "Solve Captcha" "1" "n-1"
          "a captcha solver" "https://cb.example/hook") =
      (⟨RespBody.payload "ok"
          (happyPayload deliveredWorld "alice@example.com" "Solve Captcha" "1"
            "n-1"),
        200⟩,
        happyEffects deliveredWorld "alice@example.com" "Solve Captcha"
          "a captcha solver") :=
  ⟨(C3_partial_and_ok_responses okWorld "alice@example.com" "tds2025"
      "Solve Captcha" "1" "n-1" "a captcha solver" "https://cb.example/hook"
      (by decide) rfl (fun f _ => rfl) rfl).1 (by decide),
   ((C3_partial_and_ok_responses deliveredWorld "alice@example.com" "tds2025"
      "Solve Captcha" "1" "n-1" "a captcha solver" "https://cb.example/hook"
      (by decide) rfl (fun f _ => rfl) rfl).2.1 0 (by decide) rfl
      (fun j hj => absurd hj (by omega)))⟩

/-- Claim C4 (amended): validation checks only that every required field
is present (`k not in data`) — an empty-string value passes; when any
field is missing, the endpoint answers 400 naming exactly the missing
fields, with no external call made. -/
theorem C4_validation_presence_only (w : World) (d : BuildData)
    (h : missingOf d ≠ []) :
    build_endpoint w d = (⟨RespBody.missingFields (missingOf d), 400⟩, []) := by
  simp only [build_endpoint]
  rw [if_pos h]

/-- Claim C4, counterexample to the claim as stated: a request with every
required field present but empty is not rejected by validation (no
400 `Missing fields` response); it proceeds to the secret check and gets
403. -/
theorem C4_counterexample :
    missingOf (mkData "" "" "" "" "" "" "") = [] ∧
    build_endpoint okWorld (mkData "" "" "" "" "" "" "") =
      (⟨RespBody.error "Invalid secret", 403⟩, []) := by
  decide

/-- Claim C4, witness: a request missing `email` gets 400 naming it, with
no external call. -/
theorem C4_witness :
    build_endpoint okWorld
        ⟨none, some "tds2025", some "t", some "1", some "n", some "b",
          some "u"⟩ =
      (⟨RespBody.missingFields ["email"], 400⟩, []) :=
  C4_validation_presence_only okWorld
    ⟨none, some "tds2025", some "t", some "1", some "n", some "b", some "u"⟩
    (by decide)

/-- Claim C5: a request whose secret matches no configured secret gets a
403 response with an error body, and no call to the repository host or
the callback URL is made. -/
theorem C5_invalid_secret_rejected (w : World) (e s t r nn b u : String)
    (hsecret : validate_secret w.VALID_SECRET s = false) :
    build_endpoint w (mkData e s t r nn b u) =
      (⟨RespBody.error "Invalid secret", 403⟩, []) :=
  endpoint_invalid_secret w e s t r nn b u hsecret

/-- Claim C5, witness: wrong secret against `okWorld`. -/
theorem C5_witness :
    build_endpoint okWorld
        (mkData "alice@example.com" "wrong-secret" "Solve Captcha" "1" "n-1"
          "a captcha solver" "https://cb.example/hook") =
      (⟨RespBody.error "Invalid secret", 403⟩, []) :=
  C5_invalid_secret_rejected okWorld "alice@example.com" "wrong-secret"
    "Solve Captcha" "1" "n-1" "a captcha solver" "https://cb.example/hook"
    (by decide)

/-- Claim C6: if the create stage fails, the endpoint answers 500 naming
the create stage and the only external call is the create attempt (no
push, no enable, no notify); if create succeeds but some file push fails,
the endpoint answers 500 naming the push stage and no enable or notify
call is made. -/
theorem C6_stage_failure_ordering (w : World) (e s t r nn b u : String)
    (hsecret : validate_secret w.VALID_SECRET s = true) :
    (w.createOk = false →
      build_endpoint w (mkData e s t r nn b u) =
        (⟨RespBody.ghError GhStage.create, 500⟩,
          [Effect.createRepo (safe_repo_name t e w.randomBytes)])) ∧
    (w.createOk = true →
      (∃ f ∈ buildFiles b t e w.yearStr w.llm, w.pushOk f.1 = false) →
      ∃ p, (build_endpoint w (mkData e s t r nn b u)).1 =
          ⟨RespBody.ghError (GhStage.push p), 500⟩ ∧
        ∀ eff ∈ (build_endpoint w (mkData e s t r nn b u)).2,
          eff.isEnable = false ∧ eff.isNotify = false) := by
  have hm : ¬ ¬ (missingOf ⟨some e, some s, some t, some r, some nn, some b,
      some u⟩ = []) := not_not_intro rfl
  have hns : ¬ (validate_secret w.VALID_SECRET s = false) := by
    simp [hsecret]
  constructor
  · intro hcf
    simp only [build_endpoint, mkData, Option.getD_some]
    rw [if_neg hm, if_neg hns, if_pos hcf]
  · intro hct hfail
    obtain ⟨p, hp⟩ := pushLoop_fail w.pushOk _ hfail
    have hnc : ¬ (w.createOk = false) := by simp [hct]
    refine ⟨p, ?_⟩
    simp only [build_endpoint, mkData, Option.getD_some]
    rw [if_neg hm, if_neg hns, if_neg hnc, hp]
    refine ⟨rfl, ?_⟩
    intro eff heff
    rcases List.mem_cons.mp heff with h1 | h2
    · subst h1
      exact ⟨rfl, rfl⟩
    · exact isPush_not_enable_notify eff
        (pushLoop_effects_arePushes w.pushOk _ eff h2)

/-- Claim C6, witness: the create call fails in `createFailWorld`; the
response is the 500 create-stage error and the create attempt is the only
external call. -/
theorem C6_witness :
    build_endpoint createFailWorld
        (mkData "alice@example.com" "tds2025" "Solve Captcha" "1" "n-1"
          "a captcha solver" "https://cb.example/hook") =
      (⟨RespBody.ghError GhStage.create, 500⟩,
        [Effect.createRepo
          (safe_repo_name "Solve Captcha" "alice@example.com"
            createFailWorld.randomBytes)]) :=
  (C6_stage_failure_ordering createFailWorld "alice@example.com" "tds2025"
    "Solve Captcha" "1" "n-1" "a captcha solver" "https://cb.example/hook"
    (by decide)).1 rfl

/-- Claim C10: with `VALID_SECRET` unset or empty, `validate_secret`
rejects every provided secret (the empty string included), so every
build request — whatever its fields — gets the 403 outcome and no
side-effecting call is ever made. -/
theorem C10_empty_config_rejects_all (w : World)
    (provided e s t r nn b u : String) (hw : w.VALID_SECRET = "") :
    validate_secret "" provided = false ∧
    build_endpoint w (mkData e s t r nn b u) =
      (⟨RespBody.error "Invalid secret", 403⟩, []) := by
  refine ⟨rfl, endpoint_invalid_secret w e s t r nn b u ?_⟩
  rw [hw]
  rfl

/-- Claim C10, witness: an empty `VALID_SECRET` rejects even an
empty-string secret. -/
theorem C10_witness :
    validate_secret "" "" = false ∧
    build_endpoint { okWorld with VALID_SECRET := "" }
        (mkData "alice@example.com" "" "Solve Captcha" "1" "n-1"
          "a captcha solver" "https://cb.example/hook") =
      (⟨RespBody.error "Invalid secret", 403⟩, []) :=
  C10_empty_config_rejects_all { okWorld with VALID_SECRET := "" } ""
    "alice@example.com" "" "Solve Captcha" "1" "n-1" "a captcha solver"
    "https://cb.example/hook" rfl

/-! ## Claim C7: the content synthesizer -/

/-- Appending on the right cannot make a non-empty string empty. -/
lemma str_ne_empty_left (a b : String) (h : a ≠ "") : a ++ b ≠ "" := by
  intro hc
  apply h
  rw [String.ext_iff] at hc ⊢
  rw [String.data_append] at hc
  exact (List.append_eq_nil.mp hc).1

/-- `pyOr` never yields the empty string when its default is non-empty. -/
lemma pyOr_ne_empty (o : Option String) (d : String) (hd : d ≠ "") :
    pyOr o d ≠ "" := by
  cases o with
  | none => simpa [pyOr] using hd
  | some s =>
      by_cases hs : s = "" <;> simp [pyOr, hs, hd]

/-- The deterministic fallback page is never empty. -/
lemma generate_default_index_html_ne_empty (brief task : String) :
    generate_default_index_html brief task ≠ "" := by
  unfold generate_default_index_html
  apply str_ne_empty_left
  apply str_ne_empty_left
  apply str_ne_empty_left
  apply str_ne_empty_left
  apply str_ne_empty_left
  apply str_ne_empty_left
  decide

/-- Claim C7: for every brief, task and collaborator behavior the
synthesizer returns exactly the two artifacts with non-empty content —
it is total over all collaborator outcomes, so no generation failure
escapes its boundary — and on the no-key and failure paths the
`index.html` artifact is the deterministic fallback template. -/
theorem C7_synthesizer_total (brief task : String) (b : LlmBehavior) :
    ∃ ih rm,
      llm_generate_files brief task b =
        [("index.html", ih), ("README.md", rm)] ∧
      ih ≠ "" ∧ rm ≠ "" ∧
      ((b = LlmBehavior.noKey ∨ b = LlmBehavior.failure) →
        ih = generate_default_index_html brief task) := by
  cases b with
  | noKey =>
      refine ⟨_, _, rfl, generate_default_index_html_ne_empty brief task,
        ?_, fun _ => rfl⟩
      apply str_ne_empty_left
      apply str_ne_empty_left
      apply str_ne_empty_left
      apply str_ne_empty_left
      decide
  | failure =>
      refine ⟨_, _, rfl, generate_default_index_html_ne_empty brief task,
        ?_, fun _ => rfl⟩
      apply str_ne_empty_left
      apply str_ne_empty_left
      apply str_ne_empty_left
      apply str_ne_empty_left
      decide
  | success iho rmo =>
      refine ⟨_, _, rfl,
        pyOr_ne_empty iho _ (generate_default_index_html_ne_empty brief task),
        pyOr_ne_empty rmo _ ?_, ?_⟩
      · apply str_ne_empty_left
        apply str_ne_empty_left
        apply str_ne_empty_left
        apply str_ne_empty_left
        decide
      · rintro (h | h) <;> exact LlmBehavior.noConfusion h

/-- Claim C7, witness: the failure path at concrete inputs. -/
theorem C7_witness :
    ∃ ih rm,
      llm_generate_files "a captcha solver" "Solve Captcha"
          LlmBehavior.failure =
        [("index.html", ih), ("README.md", rm)] ∧
      ih ≠ "" ∧ rm ≠ "" ∧
      ((LlmBehavior.failure = LlmBehavior.noKey ∨
        LlmBehavior.failure = LlmBehavior.failure) →
        ih = generate_default_index_html "a captcha solver" "Solve Captcha") :=
  C7_synthesizer_total "a captcha solver" "Solve Captcha" LlmBehavior.failure

/-! ## Claim C8: repository name derivation -/

/-- Lowercase hex digits. -/
def isHexChar (c : Char) : Bool :=
  "0123456789abcdef".data.contains c

/-- Every value `hexDigit` produces is a lowercase hex digit (out-of-range
indices fall back to `'0'`, also hex). -/
lemma isHexChar_hexDigit (n : Nat) : isHexChar (hexDigit n) = true := by
  rcases Nat.lt_or_ge n 16 with h | h
  · interval_cases n <;> decide
  · unfold hexDigit
    rw [List.getD_eq_default]
    · decide
    · simpa using h

lemma mem_wordHex_hex (n : Nat) : ∀ c ∈ wordHex n, isHexChar c = true := by
  intro c hc
  simp only [wordHex, List.mem_map] at hc
  obtain ⟨i, _, rfl⟩ := hc
  exact isHexChar_hexDigit _

lemma wordHex_length (n : Nat) : (wordHex n).length = 8 := by
  simp [wordHex]

/-- The hex digest has 40 characters. -/
lemma sha1hexChars_length (s : String) : (sha1hexChars s).length = 40 := by
  unfold sha1hexChars
  rcases sha1 (strBytes s) with ⟨h0, h1, h2, h3, h4⟩
  simp [wordHex_length]

/-- Every character of the hex digest is a hex digit. -/
lemma mem_sha1hexChars_hex (s : String) :
    ∀ c ∈ sha1hexChars s, isHexChar c = true := by
  unfold sha1hexChars
  rcases sha1 (strBytes s) with ⟨h0, h1, h2, h3, h4⟩
  intro c hc
  simp only [List.mem_append] at hc
  rcases hc with ((((hc | hc) | hc) | hc) | hc) <;>
    exact mem_wordHex_hex _ c hc

/-- Claim C8: the derived name is the hyphen-normalized lowercased task,
a hyphen, the first 8 hex characters of the SHA-1 of the email, a hyphen,
and the 6-hex-character random suffix; the part before the suffix does not
depend on the random source at all, and for task `"Solve Captcha"` the
task part is `"solve-captcha"`. -/
theorem C8_repo_name_shape (task email : String) (rb : List Nat)
    (hrb : 3 ≤ rb.length) :
    safe_repo_name task email rb =
      String.mk (lowerChars (replaceChar '/' '-'
          (replaceChar ' ' '-' task.data))) ++ "-" ++
        String.mk ((sha1hexChars email).take 8) ++ "-" ++ uuid4hex6 rb ∧
    (∃ p, ∀ rb2, safe_repo_name task email rb2 = p ++ uuid4hex6 rb2) ∧
    ((sha1hexChars email).take 8).length = 8 ∧
    (∀ c ∈ (sha1hexChars email).take 8, isHexChar c = true) ∧
    (uuid4hex6 rb).length = 6 ∧
    (∀ c ∈ (uuid4hex6 rb).data, isHexChar c = true) ∧
    String.mk (lowerChars (replaceChar '/' '-'
      (replaceChar ' ' '-' "Solve Captcha".data))) = "solve-captcha" := by
  refine ⟨rfl,
    ⟨String.mk (lowerChars (replaceChar '/' '-'
        (replaceChar ' ' '-' task.data))) ++ "-" ++
      String.mk ((sha1hexChars email).take 8) ++ "-", fun rb2 => rfl⟩,
    ?_, ?_, ?_, ?_, by decide⟩
  · rw [List.length_take, sha1hexChars_length]
    decide
  · intro c hc
    exact mem_sha1hexChars_hex email c (List.take_subset 8 _ hc)
  · match rb, hrb with
    | b0 :: b1 :: b2 :: rest, _ => rfl
  · match rb, hrb with
    | b0 :: b1 :: b2 :: rest, _ =>
        intro c hc
        have hu : (uuid4hex6 (b0 :: b1 :: b2 :: rest)).data =
            [hexDigit (b0 % 256 / 16), hexDigit (b0 % 256 % 16),
             hexDigit (b1 % 256 / 16), hexDigit (b1 % 256 % 16),
             hexDigit (b2 % 256 / 16), hexDigit (b2 % 256 % 16)] := rfl
        rw [hu] at hc
        simp only [List.mem_cons, List.not_mem_nil, or_false] at hc
        rcases hc with hc | hc | hc | hc | hc | hc <;>
          (rw [hc]; exact isHexChar_hexDigit _)

set_option maxRecDepth 8000 in
/-- Claim C8, witness: concrete derivations — email
`alice@example.com` hashes to `fc2398a7…` and random bytes
`[0xab, 0xcd, 0xef]` give suffix `abcdef`; a 56-character email (the
SHA-1 padding wraps into a second block there) hashes to `71286039…`. -/
theorem C8_witness :
    safe_repo_name "Solve Captcha" "alice@example.com" [171, 205, 239] =
      "solve-captcha-fc2398a7-abcdef" ∧
    safe_repo_name "Solve Captcha"
        "firstname.lastname.the.second@engineering.example-org.io"
        [171, 205, 239] =
      "solve-captcha-71286039-abcdef" := by
  have h1 := (C8_repo_name_shape "Solve Captcha" "alice@example.com"
    [171, 205, 239] (by decide)).1
  have h2 := (C8_repo_name_shape "Solve Captcha"
    "firstname.lastname.the.second@engineering.example-org.io"
    [171, 205, 239] (by decide)).1
  rw [h1, h2]
  exact ⟨by decide, by decide⟩

/-! ## Claim C9: the evaluator license check -/

lemma leadsWith_iff (p : List Char) :
    ∀ s, leadsWith p s = true ↔ p <+: s := by
  induction p with
  | nil => intro s; simp [leadsWith]
  | cons c cs ih =>
      intro s
      cases s with
      | nil => simp [leadsWith]
      | cons d ds => simp [leadsWith, ih ds, List.cons_prefix_cons]

lemma containsSub_iff (p : List Char) :
    ∀ s, containsSub p s = true ↔ p <:+: s := by
  intro s
  induction s with
  | nil => simp [containsSub, leadsWith_iff]
  | cons c t ih =>
      simp [containsSub, leadsWith_iff, ih, List.infix_cons_iff]

/-- Claim C9: the license check is positive exactly when the fetch
succeeded and the text contains `"MIT"` as a substring; a failed fetch
yields the negative `"LICENSE not found"` outcome (the embedding is total
over fetch outcomes, so the check never raises). -/
theorem C9_license_check_iff (f : FetchResult) :
    ((check_license f).1 = true ↔
      ∃ c, f = FetchResult.ok c ∧ "MIT".data <:+: c.data) ∧
    (f = FetchResult.failure →
      check_license f = (false, "LICENSE not found")) := by
  constructor
  · cases f with
    | ok content =>
        have hfst : (check_license (FetchResult.ok content)).1 =
            containsSub "MIT".data content.data := by
          by_cases h : containsSub "MIT".data content.data <;>
            simp [check_license, h]
        rw [hfst]
        constructor
        · intro ht
          exact ⟨content, rfl, (containsSub_iff _ _).mp ht⟩
        · rintro ⟨c, hc, hinf⟩
          cases hc
          exact (containsSub_iff _ _).mpr hinf
    | failure =>
        simp [check_license]
  · intro hf
    rw [hf]
    rfl

/-- Claim C9, witness: a fetched MIT license text passes, a failed fetch
reports `"LICENSE not found"`. -/
theorem C9_witness :
    (check_license (FetchResult.ok "MIT License")).1 = true ∧
    check_license FetchResult.failure = (false, "LICENSE not found") :=
  ⟨(C9_license_check_iff (FetchResult.ok "MIT License")).1.mpr
      ⟨"MIT License", rfl,
        (containsSub_iff "MIT".data "MIT License".data).mp (by decide)⟩,
    (C9_license_check_iff FetchResult.failure).2 rfl⟩

end Build
